import Mathlib

/-!
Verification of the frame-compositing pipeline of `virtual_webcam.py`.

The Python source is shallowly embedded below.  Per-pixel values (mask
scores, channel intensities, timestamps) are modelled as exact rationals;
images and masks are lists of pixel values; the parts of an image that the
claims never inspect (decoded pixel data, resize/channel-swap results,
filter effects) are modelled as a constructor trace so that every
operation the source performs on a frame is recorded and can be compared.
-/

namespace VW

/-- A mask is a flat list of per-pixel scores (a 2-D numpy array,
flattened; element-wise operations are position-wise on the list). -/
abbrev Mask : Type := List ℚ

/-! ## Mask temporal smoother, `mainloop` lines 277-280

```python
masks.insert(0, mask)
num_average_masks = max(1, config.get("average_masks", 3))
masks = masks[:num_average_masks]
mask = np.mean(masks, axis=0)
```
-/

/-- One push into the mask history: `masks.insert(0, mask)` followed by
`masks = masks[:max(1, average_masks)]`. -/
def pushMask (masks : List Mask) (mask : Mask) (average_masks : ℤ) : List Mask :=
  (mask :: masks).take (max 1 average_masks).toNat

/-- Element-wise sum of a list of same-shaped masks (the reduction inside
`np.mean(masks, axis=0)`). -/
def sumMasks : List Mask → Mask
  | [] => []
  | m :: rest => rest.foldl (fun acc x => List.zipWith (· + ·) acc x) m

/-- `np.mean(masks, axis=0)`: element-wise sum divided by the number of
masks. -/
def npMeanAxis0 (ms : List Mask) : Mask :=
  (sumMasks ms).map (fun s => s / (ms.length : ℚ))

/-- The history after pushing the masks of `ms` in order (oldest first)
into an initially empty history. -/
def pushAll (average_masks : ℤ) (ms : List Mask) : List Mask :=
  ms.foldl (fun st m => pushMask st m average_masks) []

/-- The smoothed mask the source assigns back to `mask` after the
pushes of `ms`. -/
def smoothedAfter (average_masks : ℤ) (ms : List Mask) : Mask :=
  npMeanAxis0 (pushAll average_masks ms)

/-! ## Compositor, `mainloop` lines 290 and 301-304

```python
mask_inv = 1.0 - mask
...
for c in range(3):
    frame[:,:,c] = frame[:,:,c] * mask + \
        replacement_bgs[replacement_bgs_idx][:,:,c] * mask_inv
```
-/

/-- `mask_inv = 1.0 - mask` (element-wise). -/
def mask_inv_of (mask : Mask) : Mask :=
  mask.map (fun a => 1 - a)

/-- One channel of the blend: `frame[:,:,c] * mask + bg[:,:,c] * mask_inv`. -/
def compositeChannel (frame_c bg_c : List ℚ) (mask : Mask) : List ℚ :=
  List.zipWith (· + ·) (List.zipWith (· * ·) frame_c mask)
    (List.zipWith (· * ·) bg_c (mask_inv_of mask))

/-- An RGB frame as its three channel planes. -/
structure RGB where
  r : List ℚ
  g : List ℚ
  b : List ℚ
deriving DecidableEq

/-- The `for c in range(3)` loop: blend every channel with the same mask. -/
def composite (frame replacement_bg : RGB) (mask : Mask) : RGB :=
  { r := compositeChannel frame.r replacement_bg.r mask
    g := compositeChannel frame.g replacement_bg.g mask
    b := compositeChannel frame.b replacement_bg.b mask }

/-! ## Animation index advance, `mainloop` lines 306-308 and 351-353

```python
if time.time() - config.get("last_frame_bg", 0) > 1.0 / config.get("background_fps", 1):
    config["replacement_bgs_idx"] = (replacement_bgs_idx + 1) % len(replacement_bgs)
    config["last_frame_bg"] = time.time()
```
(the overlay timer at lines 351-353 is the same pattern). -/

/-- The advance step shared by the background and overlay timers: returns
the new `(index, last-advance time)` pair. -/
def advanceIfDue (now last_frame fps : ℚ) (idx len : ℕ) : ℕ × ℚ :=
  if now - last_frame > 1 / fps then ((idx + 1) % len, now) else (idx, last_frame)

/-! ## Mask post-processor, `mainloop` lines 282-289

```python
mask *= 255
if config["dilate"]:
    mask = cv2.dilate(mask, np.ones((d, d), np.uint8), iterations=1)
if config["erode"]:
    mask = cv2.erode(mask, np.ones((e, e), np.uint8), iterations=1)
if config["blur"]:
    mask = cv2.blur(mask, (b, b))
mask /= 255.
```
`cv2.dilate` / `cv2.erode` / `cv2.blur` are external library routines whose
internal math is out of scope; they are parameters of the embedding. -/

/-- The refinement pipeline.  The three stage operations are the external
cv2 routines, passed in as parameters; each is guarded by the Python
truthiness test of its config value. -/
def refine (dilateOp erodeOp blurOp : ℤ → Mask → Mask) (mask : Mask)
    (dilate erode blur : ℤ) : Mask :=
  let m1 := mask.map (fun x => x * 255)
  let m2 := if dilate ≠ 0 then dilateOp dilate m1 else m1
  let m3 := if erode ≠ 0 then erodeOp erode m2 else m2
  let m4 := if blur ≠ 0 then blurOp blur m3 else m3
  m4.map (fun x => x / 255)

/-! ## Helper lemmas -/

theorem take_append_take {α : Type} (k : ℕ) (A B : List α) :
    (A ++ B.take k).take k = (A ++ B).take k := by
  rw [List.take_append_eq_append_take, List.take_append_eq_append_take, List.take_take]
  congr 1
  exact congrArg (fun n => List.take n B) (min_eq_left (Nat.sub_le _ _))

theorem foldl_push_eq (k : ℕ) (ms : List Mask) (st : List Mask) (hst : st.length ≤ k) :
    ms.foldl (fun s m => (m :: s).take k) st = (ms.reverse ++ st).take k := by
  induction ms generalizing st with
  | nil => simp [List.take_of_length_le hst]
  | cons m rest ih =>
    rw [List.foldl_cons, ih ((m :: st).take k) (by simp)]
    rw [List.reverse_cons, List.append_assoc, take_append_take]
    simp

theorem pushAll_eq (K : ℤ) (hK : 1 ≤ K) (ms : List Mask) :
    pushAll K ms = ms.reverse.take K.toNat := by
  have hmax : (max 1 K).toNat = K.toNat := by rw [max_eq_right hK]
  unfold pushAll pushMask
  rw [hmax, foldl_push_eq K.toNat ms [] (by simp)]
  simp

theorem zipWith_add_getD (a b : List ℚ) (i : ℕ) (ha : i < a.length) (hb : i < b.length) :
    (List.zipWith (· + ·) a b).getD i 0 = a.getD i 0 + b.getD i 0 := by
  induction a generalizing b i with
  | nil => simp at ha
  | cons x a ih =>
    cases b with
    | nil => simp at hb
    | cons y b =>
      cases i with
      | zero => simp
      | succ n =>
        simp only [List.zipWith_cons_cons, List.getD_cons_succ]
        exact ih b n (by simpa using ha) (by simpa using hb)

theorem foldl_zipWith_getD (rest : List Mask) (acc : Mask) (L : ℕ) (hacc : acc.length = L)
    (hrest : ∀ m ∈ rest, m.length = L) (i : ℕ) (hi : i < L) :
    (rest.foldl (fun a x => List.zipWith (· + ·) a x) acc).getD i 0
      = acc.getD i 0 + (rest.map (fun m => m.getD i 0)).sum := by
  induction rest generalizing acc with
  | nil => simp
  | cons m rest ih =>
    have hm : m.length = L := hrest m (List.mem_cons_self m rest)
    have hlen : (List.zipWith (· + ·) acc m).length = L := by
      simp [List.length_zipWith, hacc, hm]
    rw [List.foldl_cons, ih (List.zipWith (· + ·) acc m) hlen
      (fun x hx => hrest x (List.mem_cons_of_mem m hx))]
    rw [zipWith_add_getD acc m i (by omega) (by omega)]
    simp [add_assoc]

theorem getD_map_div (l : List ℚ) (n : ℚ) (i : ℕ) :
    (l.map (fun s => s / n)).getD i 0 = l.getD i 0 / n := by
  induction l generalizing i with
  | nil => simp
  | cons x l ih =>
    cases i with
    | zero => simp
    | succ j => simpa using ih j

theorem npMeanAxis0_getD (ms : List Mask) (L : ℕ) (hL : ∀ m ∈ ms, m.length = L)
    (i : ℕ) (hi : i < L) :
    (npMeanAxis0 ms).getD i 0 = (ms.map (fun m => m.getD i 0)).sum / (ms.length : ℚ) := by
  unfold npMeanAxis0
  rw [getD_map_div]
  congr 1
  cases ms with
  | nil => simp [sumMasks]
  | cons m rest =>
    unfold sumMasks
    rw [foldl_zipWith_getD rest m L (hL m (List.mem_cons_self m rest))
      (fun x hx => hL x (List.mem_cons_of_mem m hx)) i hi]
    simp

theorem compositeChannel_alpha_zero (fg : List ℚ) : ∀ (n : ℕ) (bg : List ℚ),
    fg.length = n → bg.length = n →
    compositeChannel fg bg (List.replicate n 0) = bg := by
  induction fg with
  | nil =>
    intro n bg hfg hbg
    cases bg with
    | nil => rfl
    | cons y ys => simp at hfg hbg; omega
  | cons x fg ih =>
    intro n bg hfg hbg
    cases bg with
    | nil => simp at hfg hbg; omega
    | cons y bg =>
      cases n with
      | zero => simp at hfg
      | succ n =>
        have h1 : fg.length = n := by simpa using hfg
        have h2 : bg.length = n := by simpa using hbg
        have tail := ih n bg h1 h2
        simp only [compositeChannel, mask_inv_of, List.replicate_succ, List.map_cons,
          List.zipWith_cons_cons] at tail ⊢
        rw [tail]
        congr 1
        ring

theorem compositeChannel_alpha_one (fg : List ℚ) : ∀ (n : ℕ) (bg : List ℚ),
    fg.length = n → bg.length = n →
    compositeChannel fg bg (List.replicate n 1) = fg := by
  induction fg with
  | nil => intro n bg hfg hbg; rfl
  | cons x fg ih =>
    intro n bg hfg hbg
    cases bg with
    | nil => simp at hfg hbg; omega
    | cons y bg =>
      cases n with
      | zero => simp at hfg
      | succ n =>
        have h1 : fg.length = n := by simpa using hfg
        have h2 : bg.length = n := by simpa using hbg
        have tail := ih n bg h1 h2
        simp only [compositeChannel, mask_inv_of, List.replicate_succ, List.map_cons,
          List.zipWith_cons_cons] at tail ⊢
        rw [tail]
        congr 1
        ring

/-! ## Claim theorems C1-C4 -/

/-- C1: after N pushes into an initially empty history with configured
capacity `average_masks = K ≥ 1`, the retained history is exactly the last
`min(N, K)` pushed masks, newest first, and the smoothed mask returned by
the smoother is their element-wise arithmetic mean. -/
theorem mask_smoother_mean (K : ℤ) (hK : 1 ≤ K) (ms : List Mask) (_hne : ms ≠ [])
    (L : ℕ) (hL : ∀ m ∈ ms, m.length = L) (i : ℕ) (hi : i < L) :
    pushAll K ms = ms.reverse.take K.toNat ∧
    (pushAll K ms).length = min ms.length K.toNat ∧
    (smoothedAfter K ms).getD i 0 =
      ((ms.reverse.take K.toNat).map (fun m => m.getD i 0)).sum
        / ((min ms.length K.toNat : ℕ) : ℚ) := by
  have h1 := pushAll_eq K hK ms
  have hlen2 : (pushAll K ms).length = min ms.length K.toNat := by
    rw [h1, List.length_take, List.length_reverse, min_comm]
  refine ⟨h1, hlen2, ?_⟩
  have hmem : ∀ m ∈ pushAll K ms, m.length = L := by
    intro m hm
    rw [h1] at hm
    exact hL m (List.mem_reverse.mp (List.mem_of_mem_take hm))
  rw [smoothedAfter, npMeanAxis0_getD (pushAll K ms) L hmem i hi, hlen2, h1]

/-- C1 witness: three pushes with capacity 2 keep the last two masks and
return their mean. -/
theorem mask_smoother_mean_witness :
    pushAll 2 [[0], [1], [1]] = ([[0], [1], [1]] : List Mask).reverse.take (2 : ℤ).toNat ∧
    (pushAll 2 [[0], [1], [1]]).length = min ([[0], [1], [1]] : List Mask).length (2 : ℤ).toNat ∧
    (smoothedAfter 2 [[0], [1], [1]]).getD 0 0 =
      ((([[0], [1], [1]] : List Mask).reverse.take (2 : ℤ).toNat).map (fun m => m.getD 0 0)).sum
        / ((min ([[0], [1], [1]] : List Mask).length (2 : ℤ).toNat : ℕ) : ℚ) :=
  mask_smoother_mean 2 (by decide) [[0], [1], [1]] (by decide) 1 (by decide) 0 (by decide)

/-- C2: blending with an all-zero alpha mask returns the background
unchanged, and blending with an all-one alpha mask returns the foreground
unchanged, on every channel. -/
theorem compositor_boundary (n : ℕ) (fg bg : RGB)
    (hfr : fg.r.length = n) (hfg : fg.g.length = n) (hfb : fg.b.length = n)
    (hbr : bg.r.length = n) (hbg : bg.g.length = n) (hbb : bg.b.length = n) :
    composite fg bg (List.replicate n 0) = bg ∧
    composite fg bg (List.replicate n 1) = fg := by
  constructor
  · have e1 := compositeChannel_alpha_zero fg.r n bg.r hfr hbr
    have e2 := compositeChannel_alpha_zero fg.g n bg.g hfg hbg
    have e3 := compositeChannel_alpha_zero fg.b n bg.b hfb hbb
    simp [composite, e1, e2, e3]
  · have e1 := compositeChannel_alpha_one fg.r n bg.r hfr hbr
    have e2 := compositeChannel_alpha_one fg.g n bg.g hfg hbg
    have e3 := compositeChannel_alpha_one fg.b n bg.b hfb hbb
    simp [composite, e1, e2, e3]

/-- C2 witness: concrete one-pixel frames. -/
theorem compositor_boundary_witness :
    composite ⟨[5], [6], [7]⟩ ⟨[1], [2], [3]⟩ (List.replicate 1 0) = ⟨[1], [2], [3]⟩ ∧
    composite ⟨[5], [6], [7]⟩ ⟨[1], [2], [3]⟩ (List.replicate 1 1) = ⟨[5], [6], [7]⟩ :=
  compositor_boundary 1 ⟨[5], [6], [7]⟩ ⟨[1], [2], [3]⟩ rfl rfl rfl rfl rfl rfl

/-- C3 counterexample: with `fps = 1` and elapsed time exactly `1 = 1/fps`,
the claim predicts an advance to `(0+1) % 2 = 1`, but the timer uses a
strict comparison and does not advance. -/
theorem animation_advance_cex :
    (1 : ℚ) - 0 ≥ 1 / 1 ∧ (advanceIfDue 1 0 1 0 2).1 = 0 ∧ (0 + 1) % 2 = 1 := by
  refine ⟨by norm_num, ?_, by norm_num⟩
  norm_num [advanceIfDue]

/-- C3 amended: the playback index advances by exactly one position modulo
the FrameSet length when the elapsed time since its last advance is
strictly greater than `1/fps`, and otherwise stays put; in either case it
never advances more than once in a single iteration. -/
theorem animation_advance_amended (now last fps : ℚ) (idx len : ℕ) :
    (now - last > 1 / fps → advanceIfDue now last fps idx len = ((idx + 1) % len, now)) ∧
    (¬ now - last > 1 / fps → advanceIfDue now last fps idx len = (idx, last)) := by
  constructor
  · intro h; rw [advanceIfDue, if_pos h]
  · intro h; rw [advanceIfDue, if_neg h]

/-- C3 amended witness: elapsed 2 with `fps = 1` advances exactly once. -/
theorem animation_advance_amended_witness :
    advanceIfDue 2 0 1 0 3 = ((0 + 1) % 3, 2) :=
  (animation_advance_amended 2 0 1 0 3).1 (by norm_num)

/-- C4: with `dilate = erode = blur = 0` every stage of the mask
post-processor is skipped and `refine` is the identity (scaling by 255 and
rescaling by 1/255 cancel exactly), for any external stage operations. -/
theorem refine_zero_identity (dilateOp erodeOp blurOp : ℤ → Mask → Mask) (mask : Mask) :
    refine dilateOp erodeOp blurOp mask 0 0 0 = mask := by
  unfold refine
  simp only [ne_eq, not_true_eq_false, if_false, List.map_map]
  have hfun : ((fun x : ℚ => x / 255) ∘ fun x : ℚ => x * 255) = id := by
    funext x
    simp only [Function.comp_apply, id_eq]
    exact mul_div_cancel_right₀ x (by norm_num)
  rw [hfun, List.map_id]

/-! ## Image/Animation cache, `load_images` lines 59-108

```python
def load_images(images, image_name, height, width, imageset_name,
        interpolation_method="NEAREST", image_filters=[]):
    try:
        replacement_stat = os.stat(image_name)
        if replacement_stat.st_mtime != config.get(imageset_name + "_mtime"):
            config[imageset_name + "_idx"] = 0
            filenames = [image_name]
            if stat.S_ISDIR(replacement_stat.st_mode):
                filenames = glob.glob(filenames[0] + "/*.*")
                if not filenames:
                    return None
            images = []
            for filename in filenames:
                image_raw = cv2.imread(filename, cv2.IMREAD_UNCHANGED)
                interpolation_method = cv2.INTER_LINEAR
                if interpolation_method == "NEAREST":
                    interpolation_method = cv2.INTER_NEAREST
                image = cv2.resize(image_raw, (width, height),
                    interpolation=interpolation_method)
                image[:,:,0], image[:,:,2] = image[:,:,2], image[:,:,0].copy()
                images.append(image)
            config[imageset_name + "_mtime"] = os.stat(image_name).st_mtime
            for i in range(len(images)):
                for image_filter in image_filters:
                    try:
                        images[i] = image_filter(images[i])
                    except TypeError:
                        pass
        return images
    except OSError:
        return None
```

File names and other opaque strings are abstracted to natural-number
identifiers.  A frame is a constructor trace recording every operation the
source applies to it, so that the resize interpolation, the channel swap
and each filter application are observable in the result.
-/

/-- The two cv2 interpolation constants the source can pass to
`cv2.resize`. -/
inductive CvInterp where
  | INTER_LINEAR
  | INTER_NEAREST
deriving DecidableEq

/-- A resolved image filter as produced by `get_imagefilters`: applying it
either transforms the frame or raises `TypeError` (wrong number of
arguments in the config), identified by `fails`. -/
structure Filter where
  fid : ℕ
  fails : Bool
deriving DecidableEq

/-- A frame, as the trace of operations the source performed on it. -/
inductive Image where
  | raw (filename : ℕ)
  | resized (img : Image) (w h : ℕ) (interp : CvInterp)
  | bgr2rgb (img : Image)
  | filtered (img : Image) (fid : ℕ)
deriving DecidableEq

/-- Number of filter applications recorded in a frame. -/
def filterCount : Image → ℕ
  | Image.raw _ => 0
  | Image.resized img _ _ _ => filterCount img
  | Image.bgr2rgb img => filterCount img
  | Image.filtered img _ => filterCount img + 1

/-- The possible values of the Python variable `interpolation_method`: the
string "NEAREST", some other string (or `None`), a cv2 constant, or - as
the overlay call site actually passes - a list of resolved filters. -/
inductive InterpVal where
  | NEAREST
  | otherStr (s : ℕ)
  | cv (c : CvInterp)
  | filterList (fs : List Filter)
deriving DecidableEq

/-- Lines 85-87: the local variable `interpolation_method` is reassigned
to `cv2.INTER_LINEAR` before being compared with the string "NEAREST", so
the comparison is against the freshly assigned constant, not the caller's
argument. -/
def selectInterp (interpolation_method : InterpVal) : CvInterp :=
  let interpolation_method := InterpVal.cv CvInterp.INTER_LINEAR
  let interpolation_method :=
    if interpolation_method = InterpVal.NEAREST then InterpVal.cv CvInterp.INTER_NEAREST
    else interpolation_method
  match interpolation_method with
  | InterpVal.cv c => c
  | _ => CvInterp.INTER_LINEAR

/-- Lines 98-102: apply one filter to one frame; a `TypeError` is caught
and leaves the frame unchanged. -/
def applyFilter (img : Image) (f : Filter) : Image :=
  if f.fails then img else Image.filtered img f.fid

/-- The fields of `os.stat` the source reads. -/
structure StatResult where
  st_mtime : ℚ
  isDir : Bool
deriving DecidableEq

/-- The filesystem as seen by one `load_images` call: the stat outcome
(`none` = `OSError`), the result of `glob.glob(image_name + "/*.*")` when
the source is a directory, and the decoder (`none` = `cv2.imread` failed
and returned `None`). -/
structure ImgEnv where
  statResult : Option StatResult
  dirListing : List ℕ
  decode : ℕ → Option Image

/-- The two config entries `load_images` reads and writes for one image
set: `config[imageset_name + "_mtime"]` and
`config[imageset_name + "_idx"]`. -/
structure ImagesetCache where
  mtime : Option ℚ
  idx : ℕ
deriving DecidableEq

/-- Lines 83-92: decode, resize and channel-swap each file.  A failed
`cv2.imread` returns `None`, and the following `cv2.resize` then raises an
error that `except OSError` does not catch, so the whole loop aborts
(`none`). -/
def decodeAll (env : ImgEnv) (filenames : List ℕ) (height width : ℕ)
    (interpolation_method : InterpVal) : Option (List Image) :=
  filenames.mapM (fun filename =>
    (env.decode filename).map (fun image_raw =>
      Image.bgr2rgb (Image.resized image_raw width height
        (selectInterp interpolation_method))))

/-- `load_images`.  The global `config` slice for this image set is passed
in and returned explicitly; `Except.error` is an exception escaping the
function (an uncaught decode error), carrying the config mutations already
performed. -/
def load_images (env : ImgEnv) (images : Option (List Image)) (image_name : ℕ)
    (height width : ℕ) (cache : ImagesetCache) (interpolation_method : InterpVal)
    (image_filters : List Filter) :
    Except ImagesetCache (Option (List Image) × ImagesetCache) :=
  match env.statResult with
  | none => Except.ok (none, cache)
  | some replacement_stat =>
    if some replacement_stat.st_mtime ≠ cache.mtime then
      let cache1 : ImagesetCache := { cache with idx := 0 }
      let filenames : List ℕ :=
        if replacement_stat.isDir then env.dirListing else [image_name]
      if filenames.isEmpty then Except.ok (none, cache1)
      else
        match decodeAll env filenames height width interpolation_method with
        | none => Except.error cache1
        | some imgs =>
          let cache2 : ImagesetCache := { cache1 with mtime := some replacement_stat.st_mtime }
          Except.ok (some (imgs.map (fun img => image_filters.foldl applyFilter img)), cache2)
    else Except.ok (images, cache)

/-- The frames a `load_images` result hands back to the caller. -/
def loadedFrames (r : Except ImagesetCache (Option (List Image) × ImagesetCache)) :
    Option (List Image) :=
  match r with
  | Except.ok (imgs, _) => imgs
  | Except.error _ => none

/-! ## The background portion of `mainloop`, lines 216-238 and 301-308 -/

/-- Outcome of the background part of one `mainloop` iteration:
`crash` = an uncaught exception escaped `load_images`; `early` = the raw
frame was scheduled directly (no background, no filters), with the global
`replacement_bgs` left as `None`; `composite` records the FrameSet that
was blended, the index used to access it, whether that index was within
bounds, and the updated config slice and background timer. -/
inductive BgOutcome where
  | crash (cache : ImagesetCache)
  | early (cache : ImagesetCache)
  | composite (replacement_bgs : List Image) (idxUsed : ℕ) (inBounds : Bool)
      (cache : ImagesetCache) (last_frame_bg : ℚ)
deriving DecidableEq

/-- Lines 301-308: read `replacement_bgs_idx`, access
`replacement_bgs[replacement_bgs_idx]` (recording whether the index is in
range), then advance the index if the background timer is due. -/
def bgIndexStep (replacement_bgs : List Image) (cache : ImagesetCache)
    (now last_frame_bg background_fps : ℚ) : BgOutcome :=
  let replacement_bgs_idx := cache.idx
  let inBounds := decide (replacement_bgs_idx < replacement_bgs.length)
  let p := advanceIfDue now last_frame_bg background_fps replacement_bgs_idx
    replacement_bgs.length
  BgOutcome.composite replacement_bgs replacement_bgs_idx inBounds
    { cache with idx := p.1 } p.2

/-- Lines 216-238 plus 301-308: reload the background FrameSet, fall back
to the (channel-swapped, filtered) camera frame when it is absent, then
blend and advance.  `frame` is the captured camera frame before the
`frame[...,::-1]` swap of line 224. -/
def bgStep (env : ImgEnv) (frame : Image) (image_name : ℕ) (height width : ℕ)
    (background_interpolation_method : InterpVal) (image_filters : List Filter)
    (cache : ImagesetCache) (replacement_bgs : Option (List Image))
    (now last_frame_bg background_fps : ℚ) : BgOutcome :=
  match load_images env replacement_bgs image_name height width cache
      background_interpolation_method image_filters with
  | Except.error c => BgOutcome.crash c
  | Except.ok (replacement_bgs, cache) =>
    let frame := Image.bgr2rgb frame
    match replacement_bgs with
    | none =>
      if image_filters.isEmpty then BgOutcome.early cache
      else
        let replacement_bg := image_filters.foldl applyFilter frame
        bgIndexStep [replacement_bg] cache now last_frame_bg background_fps
    | some replacement_bgs =>
      bgIndexStep replacement_bgs cache now last_frame_bg background_fps

/-- The FrameSet held in the global `replacement_bgs` after the step. -/
def bgsOf : BgOutcome → Option (List Image)
  | BgOutcome.crash _ => none
  | BgOutcome.early _ => none
  | BgOutcome.composite replacement_bgs _ _ _ _ => some replacement_bgs

/-- The config slice after the step. -/
def cacheOf : BgOutcome → ImagesetCache
  | BgOutcome.crash c => c
  | BgOutcome.early c => c
  | BgOutcome.composite _ _ _ c _ => c

/-- The background timer after the step (unchanged unless the blend ran). -/
def lastOf (prev : ℚ) : BgOutcome → ℚ
  | BgOutcome.crash _ => prev
  | BgOutcome.early _ => prev
  | BgOutcome.composite _ _ _ _ l => l

/-! ## The overlay load call, `mainloop` lines 320-321

```python
overlays = load_images(overlays, config.get("overlay_image", ""), height, width,
    "overlays", get_imagefilters(config.get("overlay_filters", [])))
```
The resolved overlay filter chain is the sixth positional argument, which
is `interpolation_method`; the `image_filters` parameter keeps its default
`[]`. -/
def overlayLoadStep (env : ImgEnv) (overlays : Option (List Image)) (overlay_image : ℕ)
    (height width : ℕ) (cache : ImagesetCache) (overlay_filters : List Filter) :
    Except ImagesetCache (Option (List Image) × ImagesetCache) :=
  load_images env overlays overlay_image height width cache
    (InterpVal.filterList overlay_filters) []

/-! ## Config store, `load_config` lines 37-57

```python
def load_config(oldconfig):
    config = oldconfig
    try:
        if os.stat("config.yaml").st_mtime != config.get("mtime"):
            config["mtime"] = os.stat("config.yaml").st_mtime
            with open("config.yaml", "r") as configfile:
                yconfig = yaml.load(configfile, Loader=yaml.SafeLoader)
                for key in yconfig:
                    config[key] = yconfig[key]
            for key in config:
                if key.endswith("_mtime"):
                    config[key] = 0
    except OSError:
        pass
    return config
```

Config keys are abstracted: `mtime` is the version marker (it does not end
in the suffix "_mtime"), `imageset_mtime i` / `imageset_idx i` are the
per-image-set keys (`imageset_mtime i` is exactly the class of keys ending
in "_mtime"), and `setting n` is any ordinary setting key. -/

/-- A config key. -/
inductive ConfigKey where
  | mtime
  | setting (n : ℕ)
  | imageset_mtime (iset : ℕ)
  | imageset_idx (iset : ℕ)
deriving DecidableEq

/-- `key.endswith("_mtime")`. -/
def endsWithMtimeSuffix : ConfigKey → Bool
  | ConfigKey.imageset_mtime _ => true
  | _ => false

/-- A config value: a number, or any other yaml value (abstracted). -/
inductive Val where
  | num (q : ℚ)
  | data (n : ℕ)
deriving DecidableEq

/-- The configuration dictionary, in insertion order. -/
abbrev Config : Type := List (ConfigKey × Val)

/-- `config.get(key)`. -/
def getV (c : Config) (k : ConfigKey) : Option Val :=
  (c.find? (fun p => p.1 == k)).map (fun p => p.2)

/-- `config[key] = v`: Python dict update keeps the original position of
an existing key and appends a new key at the end. -/
def setV (c : Config) (k : ConfigKey) (v : Val) : Config :=
  if c.any (fun p => p.1 == k) then c.map (fun p => if p.1 == k then (k, v) else p)
  else c ++ [(k, v)]

/-- How reading and parsing `config.yaml` went: `osError` is raised by
`open`/read and caught by the `except OSError`; `parseError` is a
`yaml.YAMLError` (or a `TypeError` from iterating a non-mapping document),
which the `except OSError` does not catch. -/
inductive ReadOutcome where
  | osError
  | parseError
  | ok (yconfig : List (ConfigKey × Val))
deriving DecidableEq

/-- `load_config`.  `statMtime` is the `os.stat("config.yaml").st_mtime`
outcome (`none` = `OSError`).  `Except.error` is an exception escaping the
function, carrying the mutations already performed. -/
def load_config (oldconfig : Config) : Option ℚ → ReadOutcome → Except Config Config
  | none, _ => Except.ok oldconfig
  | some m, readOutcome =>
    if getV oldconfig ConfigKey.mtime ≠ some (Val.num m) then
      let config1 := setV oldconfig ConfigKey.mtime (Val.num m)
      match readOutcome with
      | ReadOutcome.osError => Except.ok config1
      | ReadOutcome.parseError => Except.error config1
      | ReadOutcome.ok yconfig =>
        let config2 := yconfig.foldl (fun c kv => setV c kv.1 kv.2) config1
        let config3 := config2.map
          (fun p => if endsWithMtimeSuffix p.1 then (p.1, Val.num 0) else p)
        Except.ok config3
    else Except.ok oldconfig

/-! ## Claim theorems C5-C10 -/

/-- Environment for the C5 counterexample: `os.stat` raises `OSError`. -/
def c5Env : ImgEnv :=
  { statResult := none, dirListing := [], decode := fun _ => none }

/-- C5 counterexample: with a previously loaded FrameSet present, a stat
failure makes `load_images` return `None`; the caller assigns that return
value to `replacement_bgs`, so the previous FrameSet is not retained. -/
theorem frameset_retention_cex :
    load_images c5Env (some [Image.raw 7]) 1 4 6 { mtime := some 2, idx := 0 }
        InterpVal.NEAREST []
      = Except.ok (none, { mtime := some 2, idx := 0 }) ∧
    bgsOf (bgStep c5Env (Image.raw 0) 1 4 6 InterpVal.NEAREST []
        { mtime := some 2, idx := 0 } (some [Image.raw 7]) 0 0 1) = none ∧
    (none : Option (List Image)) ≠ some [Image.raw 7] :=
  ⟨rfl, rfl, by decide⟩

/-- C5 amended: a stat failure is recovered at the image cache boundary
(`load_images` returns normally rather than raising), but its return value
is `None` regardless of the previous FrameSet: a previous absence remains
an absence, while a previously loaded FrameSet is discarded by the
caller's assignment rather than retained. -/
theorem frameset_retention_amended (env : ImgEnv) (images : Option (List Image))
    (image_name : ℕ) (height width : ℕ) (cache : ImagesetCache)
    (interpolation_method : InterpVal) (image_filters : List Filter)
    (hstat : env.statResult = none) :
    load_images env images image_name height width cache interpolation_method image_filters
      = Except.ok (none, cache) := by
  unfold load_images
  rw [hstat]

/-- C5 amended witness. -/
theorem frameset_retention_amended_witness :
    load_images c5Env (some [Image.raw 7]) 1 4 6 { mtime := some 2, idx := 0 }
        InterpVal.NEAREST []
      = Except.ok (none, { mtime := some 2, idx := 0 }) :=
  frameset_retention_amended c5Env (some [Image.raw 7]) 1 4 6 { mtime := some 2, idx := 0 }
    InterpVal.NEAREST [] rfl

/-- A previous configuration for the C6 theorems. -/
def c6Old : Config := [(ConfigKey.mtime, Val.num 0), (ConfigKey.setting 3, Val.num 5)]

/-- C6 counterexample: when the backing file has a new mtime but parsing
it fails (`yaml.YAMLError`, which `except OSError` does not catch), the
exception propagates - the previous configuration is not returned - and
the stored mtime marker has already been mutated. -/
theorem config_reload_cex :
    load_config c6Old (some 1) ReadOutcome.parseError
      = Except.error [(ConfigKey.mtime, Val.num 1), (ConfigKey.setting 3, Val.num 5)] ∧
    load_config c6Old (some 1) ReadOutcome.parseError ≠ Except.ok c6Old := by
  have h : load_config c6Old (some 1) ReadOutcome.parseError
      = Except.error [(ConfigKey.mtime, Val.num 1), (ConfigKey.setting 3, Val.num 5)] := rfl
  exact ⟨h, by rw [h]; intro hc; exact Except.noConfusion hc⟩

/-- C6 amended: if the stat fails, or the stat shows an unchanged mtime,
the previous configuration is returned unchanged; if reading fails with an
`OSError` after a stat that observed a new mtime, the previous
configuration is returned except that its stored mtime marker has already
been updated (a partial update remains); a parse failure is not recovered
and propagates. -/
theorem config_reload_amended (oldconfig : Config) (m : ℚ) (readOutcome : ReadOutcome) :
    load_config oldconfig none readOutcome = Except.ok oldconfig ∧
    (getV oldconfig ConfigKey.mtime = some (Val.num m) →
      load_config oldconfig (some m) readOutcome = Except.ok oldconfig) ∧
    (getV oldconfig ConfigKey.mtime ≠ some (Val.num m) →
      load_config oldconfig (some m) ReadOutcome.osError
        = Except.ok (setV oldconfig ConfigKey.mtime (Val.num m))) := by
  refine ⟨rfl, ?_, ?_⟩
  · intro h
    simp only [load_config]
    rw [if_neg (not_not_intro h)]
  · intro h
    simp only [load_config]
    rw [if_pos h]

/-- C6 amended witness. -/
theorem config_reload_amended_witness :
    load_config c6Old none ReadOutcome.osError = Except.ok c6Old ∧
    load_config c6Old (some 0) ReadOutcome.osError = Except.ok c6Old ∧
    load_config c6Old (some 1) ReadOutcome.osError
      = Except.ok (setV c6Old ConfigKey.mtime (Val.num 1)) :=
  ⟨(config_reload_amended c6Old 1 ReadOutcome.osError).1,
   (config_reload_amended c6Old 0 ReadOutcome.osError).2.1 (by decide),
   (config_reload_amended c6Old 1 ReadOutcome.osError).2.2 (by decide)⟩

/-- Environment for the C7 theorem: a single image file that stats and
decodes fine. -/
def c7Env : ImgEnv :=
  { statResult := some { st_mtime := 5, isDir := false }, dirListing := [],
    decode := fun n => some (Image.raw n) }

/-- C7: the caller-supplied interpolation method is ignored.  Line 85
overwrites the local `interpolation_method` with `cv2.INTER_LINEAR` before
the comparison with "NEAREST", so the selection always yields
`INTER_LINEAR`; in particular a reload requested with "NEAREST" still
resizes every frame with linear interpolation. -/
theorem interpolation_selection_bug :
    (∀ v : InterpVal, selectInterp v = CvInterp.INTER_LINEAR) ∧
    loadedFrames (load_images c7Env none 9 4 6 { mtime := none, idx := 0 }
        InterpVal.NEAREST [])
      = some [Image.bgr2rgb (Image.resized (Image.raw 9) 6 4 CvInterp.INTER_LINEAR)] :=
  ⟨fun _ => rfl, rfl⟩

/-- Environment for the C8 theorem: a single overlay file that stats and
decodes fine. -/
def c8Env : ImgEnv :=
  { statResult := some { st_mtime := 5, isDir := false }, dirListing := [],
    decode := fun n => some (Image.raw n) }

/-- C8: the overlay call site passes the resolved overlay filter chain as
the sixth positional argument of `load_images`, which is
`interpolation_method`; `image_filters` keeps its default `[]`, so on an
overlay reload the overlay filters are applied zero times per frame, not
once, even when the chain is nonempty. -/
theorem overlay_filters_not_applied :
    overlayLoadStep c8Env none 9 4 6 { mtime := none, idx := 0 } [{ fid := 3, fails := false }]
      = Except.ok
          (some [Image.bgr2rgb (Image.resized (Image.raw 9) 6 4 CvInterp.INTER_LINEAR)],
           { mtime := some 5, idx := 0 }) ∧
    (loadedFrames (overlayLoadStep c8Env none 9 4 6 { mtime := none, idx := 0 }
        [{ fid := 3, fails := false }])).map (fun imgs => imgs.map filterCount)
      = some [0] ∧
    ([{ fid := 3, fails := false }] : List Filter) ≠ [] :=
  ⟨rfl, rfl, by decide⟩

/-- First-iteration environment for the C9 counterexample: the background
source is a directory of two frames. -/
def c9Env1 : ImgEnv :=
  { statResult := some { st_mtime := 1, isDir := true }, dirListing := [4, 5],
    decode := fun n => some (Image.raw n) }

/-- Second-iteration environment for the C9 counterexample: the background
source has disappeared (`os.stat` raises `OSError`). -/
def c9Env2 : ImgEnv :=
  { statResult := none, dirListing := [], decode := fun n => some (Image.raw n) }

/-- The configured background filter chain for the C9 counterexample. -/
def c9Filters : List Filter := [{ fid := 7, fails := false }]

/-- Iteration 1: load the two-frame animation, blend at index 0, advance
the index to 1. -/
def c9Iter1 : BgOutcome :=
  bgStep c9Env1 (Image.raw 0) 3 4 6 InterpVal.NEAREST c9Filters
    { mtime := none, idx := 0 } none 10 0 1

/-- Iteration 2: the load fails, the FrameSet is replaced by the
single-frame filtered-camera fallback, and the stale index 1 is used. -/
def c9Iter2 : BgOutcome :=
  bgStep c9Env2 (Image.raw 0) 3 4 6 InterpVal.NEAREST c9Filters
    (cacheOf c9Iter1) (bgsOf c9Iter1) 20 (lastOf 0 c9Iter1) 1

/-- The two loaded, filtered background frames of C9 iteration 1. -/
def c9Frames : List Image :=
  [Image.filtered (Image.bgr2rgb (Image.resized (Image.raw 4) 6 4 CvInterp.INTER_LINEAR)) 7,
   Image.filtered (Image.bgr2rgb (Image.resized (Image.raw 5) 6 4 CvInterp.INTER_LINEAR)) 7]

/-- C9 counterexample: after a two-frame animation advanced its index to
1, a load failure replaces the FrameSet with the one-frame fallback while
the index stays 1, so the blend accesses `replacement_bgs[1]` of a
length-1 list - the playback index is outside `[0, len)`. -/
theorem playback_index_bound_cex :
    c9Iter1 = BgOutcome.composite c9Frames 0 true { mtime := some 1, idx := 1 } 10 ∧
    c9Iter2 = BgOutcome.composite [Image.filtered (Image.bgr2rgb (Image.raw 0)) 7]
      1 false { mtime := some 1, idx := 0 } 20 ∧
    ¬ (1 < ([Image.filtered (Image.bgr2rgb (Image.raw 0)) 7] : List Image).length) := by
  have hadv1 : advanceIfDue 10 0 1 0 2 = (1, 10) := by
    unfold advanceIfDue
    rw [if_pos (by norm_num : (10 : ℚ) - 0 > 1 / 1)]
  have hadv2 : advanceIfDue 20 10 1 1 1 = (0, 20) := by
    unfold advanceIfDue
    rw [if_pos (by norm_num : (20 : ℚ) - 10 > 1 / 1)]
  have e1 : c9Iter1 = BgOutcome.composite c9Frames 0 true
      { mtime := some 1, idx := (advanceIfDue 10 0 1 0 2).1 }
      (advanceIfDue 10 0 1 0 2).2 := rfl
  have e1f : c9Iter1 = BgOutcome.composite c9Frames 0 true
      { mtime := some 1, idx := 1 } 10 := by
    rw [e1, hadv1]
  have e2 : c9Iter2 = BgOutcome.composite [Image.filtered (Image.bgr2rgb (Image.raw 0)) 7]
      1 false { mtime := some 1, idx := (advanceIfDue 20 10 1 1 1).1 }
      (advanceIfDue 20 10 1 1 1).2 := by
    unfold c9Iter2
    rw [e1f]
    rfl
  have e2f : c9Iter2 = BgOutcome.composite [Image.filtered (Image.bgr2rgb (Image.raw 0)) 7]
      1 false { mtime := some 1, idx := 0 } 20 := by
    rw [e2, hadv2]
  exact ⟨e1f, e2f, by decide⟩

/-- C9 amended: when the index read from the config is in range for the
FrameSet being blended, the access is in bounds and the advance step keeps
the index in `[0, len)`; but this bound is not an invariant of all
reachable states, because the single-frame fallback after a load failure
replaces the FrameSet without resetting the stale index. -/
theorem playback_index_bound_amended (replacement_bgs : List Image) (cache : ImagesetCache)
    (now last fps : ℚ) (hlen : 0 < replacement_bgs.length)
    (hidx : cache.idx < replacement_bgs.length) :
    bgIndexStep replacement_bgs cache now last fps
      = BgOutcome.composite replacement_bgs cache.idx true
          { cache with idx := (advanceIfDue now last fps cache.idx replacement_bgs.length).1 }
          (advanceIfDue now last fps cache.idx replacement_bgs.length).2 ∧
    (advanceIfDue now last fps cache.idx replacement_bgs.length).1
      < replacement_bgs.length := by
  constructor
  · have hred : bgIndexStep replacement_bgs cache now last fps
        = BgOutcome.composite replacement_bgs cache.idx
          (decide (cache.idx < replacement_bgs.length))
          { cache with idx := (advanceIfDue now last fps cache.idx replacement_bgs.length).1 }
          (advanceIfDue now last fps cache.idx replacement_bgs.length).2 := rfl
    rw [hred, decide_eq_true hidx]
  · unfold advanceIfDue
    split
    · exact Nat.mod_lt _ hlen
    · exact hidx

/-- C9 amended witness. -/
theorem playback_index_bound_amended_witness :
    bgIndexStep [Image.raw 4] { mtime := some 1, idx := 0 } 10 0 1
      = BgOutcome.composite [Image.raw 4] 0 true
          { mtime := some 1, idx := (advanceIfDue 10 0 1 0 1).1 } (advanceIfDue 10 0 1 0 1).2 ∧
    (advanceIfDue 10 0 1 0 1).1 < 1 :=
  playback_index_bound_amended [Image.raw 4] { mtime := some 1, idx := 0 } 10 0 1
    (by decide) (by decide)

/-- C10: when the source stats successfully as a directory with a changed
mtime but `glob.glob(image_name + "/*.*")` matches nothing, `load_images`
returns `None` - after having already reset the cached playback index for
the set to 0. -/
theorem empty_dir_returns_none (env : ImgEnv) (st : StatResult)
    (images : Option (List Image)) (image_name : ℕ) (height width : ℕ)
    (cache : ImagesetCache) (interpolation_method : InterpVal) (image_filters : List Filter)
    (hstat : env.statResult = some st) (hdir : st.isDir = true)
    (hempty : env.dirListing = []) (hmtime : some st.st_mtime ≠ cache.mtime) :
    load_images env images image_name height width cache interpolation_method image_filters
      = Except.ok (none, { cache with idx := 0 }) := by
  unfold load_images
  rw [hstat]
  simp only [hdir, hempty, if_pos hmtime, if_true, List.isEmpty_nil, ite_true]

/-- Environment for the C10 witness: a directory whose glob matches no
files. -/
def c10Env : ImgEnv :=
  { statResult := some { st_mtime := 3, isDir := true }, dirListing := [],
    decode := fun n => some (Image.raw n) }

/-- C10 witness: a directory with no matching children; the stale index 5
is reset to 0 and `None` is returned. -/
theorem empty_dir_returns_none_witness :
    load_images c10Env (some [Image.raw 2]) 1 4 6 { mtime := some 0, idx := 5 }
        InterpVal.NEAREST []
      = Except.ok (none, { mtime := some 0, idx := 0 }) :=
  empty_dir_returns_none c10Env { st_mtime := 3, isDir := true } (some [Image.raw 2]) 1 4 6
    { mtime := some 0, idx := 5 } InterpVal.NEAREST [] rfl rfl rfl (by decide)

end VW
